import Mathlib

/-!
Verification of the Unit09 on-chain registry program (Config / Lifecycle /
Metrics / Repo / Fork state plus the `create_fork`, `record_observation` and
`record_metrics` instruction handlers) against its natural-language
specification.

The embedding follows the Rust sources under `contracts/programs/src`:
* `errors.rs`            → `Unit09Error`
* `constants.rs`         → the numeric constants below
* `state/config.rs`      → `Config` and its methods
* instruction handlers   → `create_fork.handle`, `record_observation.handle`,
                           `record_metrics.handle`

The state structs `Lifecycle`, `Metrics`, `Repo` and `Fork` and their methods
are not among the provided sources (only `state/config.rs` is); those are
modelled from the specification and are marked `Modelled from the spec:` in
their doc comments.

Machine integers are embedded as `Nat` (`u64`/`u32`/`u16`) and `Int` (`i64`);
overflow is made explicit through comparisons against `U64_MAX` exactly where
the spec demands checked arithmetic.  Fallible Rust methods returning
`Result<()>`/`Result<T>` become `Except Unit09Error Unit`/`Except Unit09Error T`.
Instruction handlers that mutate several accounts in place are embedded in a
state-passing style returning the post-state of the mutated accounts together
with an `Option Unit09Error`: an error reports the failure, and the returned
accounts reflect exactly the mutations performed before the failing check
(which lets "rejected before any account mutation" be stated directly).
-/

namespace Unit09

/-- `u64::MAX`, that is `2 ^ 64 - 1`. -/
def U64_MAX : Nat := 18446744073709551615

/-- Error codes of the Unit09 program (`errors.rs`), restricted to the
variants reachable from the embedded operations. -/
inductive Unit09Error where
  | InternalError
  | CounterOverflow
  | ValidationFailed
  | InvalidAdmin
  | InvalidFeeBps
  | StringTooLong
  | StringEmpty
  | ValueOutOfRange
  | RepoInactive
  | RepoObservationLimitReached
  | ObservationDataTooLarge
  | ObservationNotAllowed
  | InvalidLifecycleState
  deriving DecidableEq, Repr

/-- `constants.rs`: current schema version stamped on `Config`. -/
def CURRENT_SCHEMA_VERSION : Nat := 1

/-- `constants.rs`: maximum allowed fee in basis points (50%). -/
def MAX_FEE_BPS : Nat := 5000

/-- `constants.rs`: maximum length for human-readable names; used for
`Fork::label` among others. -/
def MAX_NAME_LEN : Nat := 64

/-- `constants.rs`: maximum length for metadata URIs. -/
def MAX_METADATA_URI_LEN : Nat := 256

/-- `constants.rs`: maximum length for comma-separated tags. -/
def MAX_TAGS_LEN : Nat := 128

/-- `constants.rs`: maximum lines of code a single observation may report. -/
def MAX_LOC_PER_OBSERVATION : Nat := 10000000

/-- `constants.rs`: maximum file count a single observation may report. -/
def MAX_FILES_PER_OBSERVATION : Nat := 100000

/-- Modelled from the spec: `MAX_MODULES_PER_OBSERVATION` is referenced by the
`record_observation` handler but its definition is not among the provided
sources; the exact value does not affect any verified claim (claims only need
some fixed upper bound for `modules_touched`). -/
def MAX_MODULES_PER_OBSERVATION : Nat := 10000

/-- `constants.rs`: default maximum observation count for a single repository. -/
def SOFT_MAX_OBSERVATIONS_PER_REPO : Nat := 1000000

/-- The clock sysvar: only its Unix timestamp is consumed by the program. -/
structure Clock where
  unix_timestamp : Int
  deriving DecidableEq, Repr

/-- Global configuration account (`state/config.rs`).  `Pubkey` and the opaque
32-byte `policy_ref` hash are embedded as `Nat` identities; `reserved` keeps
its byte-list shape. -/
structure Config where
  admin : Nat
  fee_bps : Nat
  max_modules_per_repo : Nat
  schema_version : Nat
  is_active : Bool
  created_at : Int
  updated_at : Int
  policy_ref : Nat
  bump : Nat
  reserved : List Nat
  deriving DecidableEq, Repr

/-- `Config::validate_fee_bps`: fee must not exceed `MAX_FEE_BPS`. -/
def Config.validate_fee_bps (fee_bps : Nat) : Except Unit09Error Unit :=
  if fee_bps > MAX_FEE_BPS then .error .InvalidFeeBps else .ok ()

/-- `Config::validate_max_modules`: the module cap must be non-zero. -/
def Config.validate_max_modules (max_modules : Nat) : Except Unit09Error Unit :=
  if max_modules = 0 then .error .ValueOutOfRange else .ok ()

/-- `Config::init`: validate the fee and module cap, then populate every field. -/
def Config.init (_self : Config) (admin fee_bps max_modules_per_repo : Nat)
    (policy_ref : Nat) (bump : Nat) (clock : Clock) : Except Unit09Error Config :=
  match Config.validate_fee_bps fee_bps with
  | .error e => .error e
  | .ok _ =>
    match Config.validate_max_modules max_modules_per_repo with
    | .error e => .error e
    | .ok _ =>
      .ok { admin := admin
            fee_bps := fee_bps
            max_modules_per_repo := max_modules_per_repo
            schema_version := CURRENT_SCHEMA_VERSION
            is_active := true
            created_at := clock.unix_timestamp
            updated_at := clock.unix_timestamp
            policy_ref := policy_ref
            bump := bump
            reserved := List.replicate 63 0 }

/-- `Config::apply_update`: sparse patch — each `some` value is validated and
overwrites its field, each `none` leaves the field untouched; `updated_at`
always refreshes.  The source validates/assigns field by field; through the
`Except` result (mutations before a failing check are rolled back by the
ledger) this is observably the validate-then-patch function below, with the
fee check taking precedence over the module-cap check as in the source. -/
def Config.apply_update (self : Config)
    (maybe_fee_bps maybe_max_modules_per_repo : Option Nat)
    (maybe_is_active : Option Bool) (maybe_policy_ref : Option Nat)
    (clock : Clock) : Except Unit09Error Config :=
  match (match maybe_fee_bps with
         | some fee_bps => Config.validate_fee_bps fee_bps
         | none => .ok ()) with
  | .error e => .error e
  | .ok _ =>
    match (match maybe_max_modules_per_repo with
           | some max_modules => Config.validate_max_modules max_modules
           | none => .ok ()) with
    | .error e => .error e
    | .ok _ =>
      .ok { self with
            fee_bps := maybe_fee_bps.getD self.fee_bps
            max_modules_per_repo :=
              maybe_max_modules_per_repo.getD self.max_modules_per_repo
            is_active := maybe_is_active.getD self.is_active
            policy_ref := maybe_policy_ref.getD self.policy_ref
            updated_at := clock.unix_timestamp }

/-- `Config::assert_admin`: the signer must match the stored admin. -/
def Config.assert_admin (self : Config) (signer : Nat) : Except Unit09Error Unit :=
  if signer ≠ self.admin then .error .InvalidAdmin else .ok ()

/-- `Config::assert_active`: the deployment must be marked active. -/
def Config.assert_active (self : Config) : Except Unit09Error Unit :=
  if !self.is_active then .error .InvalidLifecycleState else .ok ()

/-- Modelled from the spec: the `Lifecycle` state struct is not among the
provided sources.  §4.2 describes it as a single phase flag gating whether any
write instruction may proceed; `bump` is the PDA nonce every account carries. -/
structure Lifecycle where
  writes_allowed : Bool
  bump : Nat
  deriving DecidableEq, Repr

/-- Modelled from the spec: `Lifecycle::assert_writes_allowed` fails with the
lifecycle error (`InvalidLifecycleState`, §7 groups it under Lifecycle) when
the global phase forbids mutation, and succeeds otherwise (§4.2). -/
def Lifecycle.assert_writes_allowed (self : Lifecycle) : Except Unit09Error Unit :=
  if self.writes_allowed then .ok () else .error .InvalidLifecycleState

/-- Modelled from the spec: the `Metrics` state struct is not among the
provided sources.  §3 gives six `u64` aggregate counters plus `updated_at`;
the six field names follow `RecordMetricsArgs` and the `MetricsReconciled`
event in `record_metrics.rs`. -/
structure Metrics where
  total_repos : Nat
  total_modules : Nat
  total_forks : Nat
  total_observations : Nat
  total_lines_of_code : Nat
  total_files_processed : Nat
  updated_at : Int
  bump : Nat
  deriving DecidableEq, Repr

/-- Sentinel check used on each optional reconciliation value: `some u64::MAX`
is rejected with `ValueOutOfRange` (`record_metrics.rs` lines 149–183 perform
exactly this per-field check; the spec requires the same check inside
`Metrics::adjust_aggregate`). -/
def checkNotMax (v : Option Nat) : Except Unit09Error Unit :=
  match v with
  | some x => if x = U64_MAX then .error .ValueOutOfRange else .ok ()
  | none => .ok ()

/-- Pure overwrite applied by `adjust_aggregate`: each `some` value replaces
its counter, each `none` keeps it, and `updated_at` is refreshed. -/
def Metrics.overwrite (self : Metrics)
    (total_repos total_modules total_forks total_observations
     total_lines_of_code total_files_processed : Option Nat)
    (clock : Clock) : Metrics :=
  { self with
    total_repos := total_repos.getD self.total_repos
    total_modules := total_modules.getD self.total_modules
    total_forks := total_forks.getD self.total_forks
    total_observations := total_observations.getD self.total_observations
    total_lines_of_code := total_lines_of_code.getD self.total_lines_of_code
    total_files_processed := total_files_processed.getD self.total_files_processed
    updated_at := clock.unix_timestamp }

/-- Modelled from the spec: `Metrics::adjust_aggregate` is not among the
provided sources.  §4.3: for each `some` value, unconditionally overwrites the
corresponding counter (reconciliation, not additive); rejects the sentinel
`u64::MAX` per field with `ValueOutOfRange`, all-or-nothing across the six
fields (§8); always refreshes `updated_at`. -/
def Metrics.adjust_aggregate (self : Metrics)
    (total_repos total_modules total_forks total_observations
     total_lines_of_code total_files_processed : Option Nat)
    (clock : Clock) : Except Unit09Error Metrics :=
  match checkNotMax total_repos with
  | .error e => .error e
  | .ok _ =>
  match checkNotMax total_modules with
  | .error e => .error e
  | .ok _ =>
  match checkNotMax total_forks with
  | .error e => .error e
  | .ok _ =>
  match checkNotMax total_observations with
  | .error e => .error e
  | .ok _ =>
  match checkNotMax total_lines_of_code with
  | .error e => .error e
  | .ok _ =>
  match checkNotMax total_files_processed with
  | .error e => .error e
  | .ok _ =>
    .ok (self.overwrite total_repos total_modules total_forks total_observations
          total_lines_of_code total_files_processed clock)

/-- Checked `u64` addition: fails with `CounterOverflow` when the sum does not
fit in a `u64` (§4.3 requires checked arithmetic for counter aggregation). -/
def checkedAddU64 (a b : Nat) : Except Unit09Error Nat :=
  if a + b > U64_MAX then .error .CounterOverflow else .ok (a + b)

/-- Modelled from the spec: `Metrics::record_observation` is not among the
provided sources.  §4.3: increments `total_observations`, adds `loc` to
`total_lines_of_code`, adds `files` to `total_files_processed`, using checked
arithmetic that signals `CounterOverflow` on overflow (spec requirement), and
refreshes `updated_at`. -/
def Metrics.record_observation (self : Metrics) (loc files : Nat)
    (clock : Clock) : Except Unit09Error Metrics :=
  match checkedAddU64 self.total_observations 1 with
  | .error e => .error e
  | .ok obs =>
  match checkedAddU64 self.total_lines_of_code loc with
  | .error e => .error e
  | .ok lines =>
  match checkedAddU64 self.total_files_processed files with
  | .error e => .error e
  | .ok files_total =>
    .ok { self with
          total_observations := obs
          total_lines_of_code := lines
          total_files_processed := files_total
          updated_at := clock.unix_timestamp }

/-- Modelled from the spec: the `Repo` state struct is not among the provided
sources.  §3: identity key, owner, length-bounded strings, active flag,
observation-allowed flag, per-repo counters (observation count, LOC, files,
modules touched), `last_observed_at`; `record_observation.rs` additionally
stores the revision/note and the observer. -/
structure Repo where
  repo_key : Nat
  owner : Nat
  name : String
  url : String
  tags : String
  is_active : Bool
  observation_allowed : Bool
  observation_count : Nat
  total_lines_of_code : Nat
  total_files_processed : Nat
  modules_touched : Nat
  last_revision : String
  last_note : String
  last_observer : Nat
  last_observed_at : Int
  bump : Nat
  deriving DecidableEq, Repr

/-- Modelled from the spec: `Repo::MAX_REVISION_LEN` is referenced by the
handler but not defined in the provided sources; the exact value does not
affect any verified claim. -/
def Repo.MAX_REVISION_LEN : Nat := 64

/-- Modelled from the spec: `Repo::MAX_OBSERVATION_NOTE_LEN` is referenced by
the handler but not defined in the provided sources; the exact value does not
affect any verified claim. -/
def Repo.MAX_OBSERVATION_NOTE_LEN : Nat := 256

/-- Modelled from the spec: `Repo::assert_active` fails with `RepoInactive`
when the repository is inactive (§4.4). -/
def Repo.assert_active (self : Repo) : Except Unit09Error Unit :=
  if !self.is_active then .error .RepoInactive else .ok ()

/-- Modelled from the spec: `Repo::assert_observable` fails with
`ObservationNotAllowed` when the repo's observation flag is false (§4.4). -/
def Repo.assert_observable (self : Repo) : Except Unit09Error Unit :=
  if !self.observation_allowed then .error .ObservationNotAllowed else .ok ()

/-- Modelled from the spec: `Repo::record_observation` is not among the
provided sources.  §4.4: re-validates `revision`/`note` lengths, enforces
`RepoObservationLimitReached` once the configured observation cap
(`SOFT_MAX_OBSERVATIONS_PER_REPO`) is reached, updates the per-repo counters
additively with overflow checks, stores `revision`/`note` and the observer,
and sets `last_observed_at` from the clock.  Validation precedes every
mutation (§4.6 step 4). -/
def Repo.record_observation (self : Repo) (loc : Nat)
    (files modules_touched : Nat) (revision note : String) (observer : Nat)
    (clock : Clock) : Except Unit09Error Repo :=
  if revision.length > Repo.MAX_REVISION_LEN then .error .StringTooLong
  else if note.length > Repo.MAX_OBSERVATION_NOTE_LEN then .error .StringTooLong
  else if self.observation_count ≥ SOFT_MAX_OBSERVATIONS_PER_REPO then
    .error .RepoObservationLimitReached
  else
    match checkedAddU64 self.observation_count 1 with
    | .error e => .error e
    | .ok count =>
    match checkedAddU64 self.total_lines_of_code loc with
    | .error e => .error e
    | .ok lines =>
    match checkedAddU64 self.total_files_processed files with
    | .error e => .error e
    | .ok files_total =>
    match checkedAddU64 self.modules_touched modules_touched with
    | .error e => .error e
    | .ok modules_total =>
      .ok { self with
            observation_count := count
            total_lines_of_code := lines
            total_files_processed := files_total
            modules_touched := modules_total
            last_revision := revision
            last_note := note
            last_observer := observer
            last_observed_at := clock.unix_timestamp }

/-- Modelled from the spec: the `Fork` state struct is not among the provided
sources.  §3: `fork_key`, `parent` (default = none/root), `owner`, `label`,
`metadata_uri`, `tags`, `is_root`, `depth`, `created_at`, `bump`, plus the
active flag set by `create_fork`. -/
structure Fork where
  fork_key : Nat
  parent : Nat
  owner : Nat
  label : String
  metadata_uri : String
  tags : String
  is_root : Bool
  depth : Nat
  is_active : Bool
  created_at : Int
  bump : Nat
  deriving DecidableEq, Repr

/-- `Fork::MAX_LABEL_LEN`: `constants.rs` documents `MAX_NAME_LEN` as the
bound for `Fork::label`. -/
def Fork.MAX_LABEL_LEN : Nat := MAX_NAME_LEN

/-- `Fork::MAX_METADATA_URI_LEN`: bound for metadata URIs (`constants.rs`). -/
def Fork.MAX_METADATA_URI_LEN : Nat := Unit09.MAX_METADATA_URI_LEN

/-- `Fork::MAX_TAGS_LEN`: bound for tag strings (`constants.rs`). -/
def Fork.MAX_TAGS_LEN : Nat := Unit09.MAX_TAGS_LEN

/-- Modelled from the spec: `Fork::init` is not among the provided sources.
§4.5: one-shot initializer; rejects empty or oversized `label`/`metadata_uri`
(`StringEmpty`/`StringTooLong`); `tags` may be empty but is length-bounded;
stores the supplied fields (including the caller-derived `depth`), marks the
fork active, and stamps `created_at` from the clock. -/
def Fork.init (_self : Fork) (fork_key parent owner : Nat)
    (label metadata_uri tags : String) (is_root : Bool) (depth : Nat)
    (bump : Nat) (clock : Clock) : Except Unit09Error Fork :=
  if label.isEmpty then .error .StringEmpty
  else if label.length > Fork.MAX_LABEL_LEN then .error .StringTooLong
  else if metadata_uri.isEmpty then .error .StringEmpty
  else if metadata_uri.length > Fork.MAX_METADATA_URI_LEN then .error .StringTooLong
  else if tags.length > Fork.MAX_TAGS_LEN then .error .StringTooLong
  else
    .ok { fork_key := fork_key
          parent := parent
          owner := owner
          label := label
          metadata_uri := metadata_uri
          tags := tags
          is_root := is_root
          depth := depth
          is_active := true
          created_at := clock.unix_timestamp
          bump := bump }

/-- Arguments of the `create_fork` instruction (`create_fork.rs`). -/
structure CreateForkArgs where
  fork_key : Nat
  parent : Option Nat
  label : String
  metadata_uri : String
  tags : String
  is_root : Bool
  depth : Option Nat
  deriving DecidableEq, Repr

/-- Arguments of the `record_observation` instruction
(`record_observation.rs`). -/
structure RecordObservationArgs where
  lines_of_code : Nat
  files_processed : Nat
  modules_touched : Nat
  revision : String
  note : String
  deriving DecidableEq, Repr

/-- Arguments of the `record_metrics` instruction (`record_metrics.rs`). -/
structure RecordMetricsArgs where
  total_repos : Option Nat
  total_modules : Option Nat
  total_forks : Option Nat
  total_observations : Option Nat
  total_lines_of_code : Option Nat
  total_files_processed : Option Nat
  deriving DecidableEq, Repr

/-- Handler of the `create_fork` instruction (`create_fork.rs`): lifecycle and
config guards, early string validation, default `parent`
(`Pubkey::default()` embedded as `0`), depth defaulting (`0` for roots, `1`
otherwise, explicit depth always wins), then `Fork::init`.  The handler never
writes `config` or `lifecycle`; the only account it populates is the new
`Fork`, so an `Except` result captures the full account effect (an error means
the fork account was never initialized). -/
def create_fork.handle (lifecycle : Lifecycle) (config : Config)
    (owner : Nat) (fork : Fork) (fork_bump : Nat) (clock : Clock)
    (args : CreateForkArgs) : Except Unit09Error Fork :=
  match lifecycle.assert_writes_allowed with
  | .error e => .error e
  | .ok _ =>
  match config.assert_active with
  | .error e => .error e
  | .ok _ =>
  if args.label.isEmpty then .error .StringEmpty
  else if args.label.length > Fork.MAX_LABEL_LEN then .error .StringTooLong
  else if args.metadata_uri.isEmpty then .error .StringEmpty
  else if args.metadata_uri.length > Fork.MAX_METADATA_URI_LEN then
    .error .StringTooLong
  else if args.tags.length > Fork.MAX_TAGS_LEN then .error .StringTooLong
  else
    fork.init args.fork_key (args.parent.getD 0) owner args.label
      args.metadata_uri args.tags args.is_root
      (match args.depth with
       | some d => d
       | none => if args.is_root then 0 else 1)
      fork_bump clock

/-- Handler of the `record_observation` instruction
(`record_observation.rs`): lifecycle, config-active, repo-active and
repo-observable guards, numeric range checks on `lines_of_code`,
`files_processed` and `modules_touched`, string length checks, then the
per-repo update followed by the global metrics aggregation and the final
`metrics.updated_at` refresh.  The result carries the post-states of the two
mutated accounts (`Repo`, `Metrics`) plus the error, reflecting exactly the
mutations performed before any failing check. -/
def record_observation.handle (lifecycle : Lifecycle) (config : Config)
    (metrics : Metrics) (repo : Repo) (observer : Nat) (clock : Clock)
    (args : RecordObservationArgs) : (Repo × Metrics) × Option Unit09Error :=
  match lifecycle.assert_writes_allowed with
  | .error e => ((repo, metrics), some e)
  | .ok _ =>
  match config.assert_active with
  | .error e => ((repo, metrics), some e)
  | .ok _ =>
  match repo.assert_active with
  | .error e => ((repo, metrics), some e)
  | .ok _ =>
  match repo.assert_observable with
  | .error e => ((repo, metrics), some e)
  | .ok _ =>
  if args.lines_of_code = 0 then ((repo, metrics), some .ValueOutOfRange)
  else if args.lines_of_code > MAX_LOC_PER_OBSERVATION then
    ((repo, metrics), some .ObservationDataTooLarge)
  else if args.files_processed = 0 then ((repo, metrics), some .ValueOutOfRange)
  else if args.files_processed > MAX_FILES_PER_OBSERVATION then
    ((repo, metrics), some .ObservationDataTooLarge)
  else if args.modules_touched > MAX_MODULES_PER_OBSERVATION then
    ((repo, metrics), some .ObservationDataTooLarge)
  else if args.revision.length > Repo.MAX_REVISION_LEN then
    ((repo, metrics), some .StringTooLong)
  else if args.note.length > Repo.MAX_OBSERVATION_NOTE_LEN then
    ((repo, metrics), some .StringTooLong)
  else
    match repo.record_observation args.lines_of_code args.files_processed
        args.modules_touched args.revision args.note observer clock with
    | .error e => ((repo, metrics), some e)
    | .ok repo1 =>
      match metrics.record_observation args.lines_of_code args.files_processed
          clock with
      | .error e => ((repo1, metrics), some e)
      | .ok metrics1 =>
        ((repo1, { metrics1 with updated_at := clock.unix_timestamp }), none)

/-- Handler of the `record_metrics` instruction (`record_metrics.rs`):
lifecycle, admin and config-active guards, the six per-field `u64::MAX`
sentinel checks (lines 149–183), then `Metrics::adjust_aggregate` and the
final `metrics.updated_at` refresh (line 201).  The result carries the
post-state of the mutated `Metrics` account plus the error. -/
def record_metrics.handle (lifecycle : Lifecycle) (config : Config)
    (admin : Nat) (metrics : Metrics) (clock : Clock)
    (args : RecordMetricsArgs) : Metrics × Option Unit09Error :=
  match lifecycle.assert_writes_allowed with
  | .error e => (metrics, some e)
  | .ok _ =>
  match config.assert_admin admin with
  | .error e => (metrics, some e)
  | .ok _ =>
  match config.assert_active with
  | .error e => (metrics, some e)
  | .ok _ =>
  match checkNotMax args.total_repos with
  | .error e => (metrics, some e)
  | .ok _ =>
  match checkNotMax args.total_modules with
  | .error e => (metrics, some e)
  | .ok _ =>
  match checkNotMax args.total_forks with
  | .error e => (metrics, some e)
  | .ok _ =>
  match checkNotMax args.total_observations with
  | .error e => (metrics, some e)
  | .ok _ =>
  match checkNotMax args.total_lines_of_code with
  | .error e => (metrics, some e)
  | .ok _ =>
  match checkNotMax args.total_files_processed with
  | .error e => (metrics, some e)
  | .ok _ =>
  match metrics.adjust_aggregate args.total_repos args.total_modules
      args.total_forks args.total_observations args.total_lines_of_code
      args.total_files_processed clock with
  | .error e => (metrics, some e)
  | .ok metrics1 => ({ metrics1 with updated_at := clock.unix_timestamp }, none)

/-! ## Helper lemmas and concrete fixtures -/

/-- The sentinel check succeeds exactly on values that are not `some u64::MAX`. -/
theorem checkNotMax_eq_ok (v : Option Nat) (h : v ≠ some U64_MAX) :
    checkNotMax v = .ok () := by
  cases v with
  | none => rfl
  | some x =>
    have hx : x ≠ U64_MAX := fun hx => h (by rw [hx])
    simp [checkNotMax, hx]

/-- The sentinel check rejects `some u64::MAX` with `ValueOutOfRange`. -/
theorem checkNotMax_max : checkNotMax (some U64_MAX) = .error .ValueOutOfRange := by
  simp [checkNotMax]

/-- Overwriting with the same optional value twice is the same as once. -/
theorem option_getD_getD (o : Option Nat) (a : Nat) :
    o.getD (o.getD a) = o.getD a := by
  cases o <;> rfl

/-- Fixture clock for the witness theorems. -/
def sampleClock : Clock := { unix_timestamp := 1700000000 }

/-- Fixture active configuration for the witness theorems. -/
def sampleConfig : Config :=
  { admin := 1
    fee_bps := 250
    max_modules_per_repo := 100
    schema_version := 1
    is_active := true
    created_at := 0
    updated_at := 0
    policy_ref := 0
    bump := 255
    reserved := List.replicate 63 0 }

/-- Fixture lifecycle with writes allowed. -/
def sampleLifecycle : Lifecycle := { writes_allowed := true, bump := 254 }

/-- Fixture lifecycle with writes forbidden. -/
def frozenLifecycle : Lifecycle := { writes_allowed := false, bump := 254 }

/-- Fixture metrics account for the witness theorems. -/
def sampleMetrics : Metrics :=
  { total_repos := 3
    total_modules := 5
    total_forks := 2
    total_observations := 10
    total_lines_of_code := 50000
    total_files_processed := 400
    updated_at := 0
    bump := 253 }

/-- Fixture active, observable repository for the witness theorems. -/
def sampleRepo : Repo :=
  { repo_key := 7
    owner := 2
    name := "unit09-core"
    url := "u"
    tags := ""
    is_active := true
    observation_allowed := true
    observation_count := 4
    total_lines_of_code := 1000
    total_files_processed := 20
    modules_touched := 3
    last_revision := ""
    last_note := ""
    last_observer := 0
    last_observed_at := 0
    bump := 252 }

/-- Fixture repository whose observation flag is off. -/
def lockedRepo : Repo := { sampleRepo with observation_allowed := false }

/-- Fixture blank fork account (pre-initialization contents are irrelevant:
`Fork.init` overwrites every field). -/
def blankFork : Fork :=
  { fork_key := 0
    parent := 0
    owner := 0
    label := ""
    metadata_uri := ""
    tags := ""
    is_root := false
    depth := 0
    is_active := false
    created_at := 0
    bump := 0 }

/-! ## Claims -/

/-- Claim C8: `Config::apply_update` with all four optional fields unset
succeeds and leaves every field of the `Config` account unchanged except
`updated_at`, which is set to `clock.unix_timestamp`. -/
theorem c8_apply_update_none_noop (cfg : Config) (clock : Clock) :
    cfg.apply_update none none none none clock =
      .ok { cfg with updated_at := clock.unix_timestamp } := rfl

/-- Claim C3: for every `fee_bps > 5000`, `Config::init` and
`Config::apply_update` (with `some fee_bps`) fail with `InvalidFeeBps`; for
every `fee_bps ≤ 5000` and otherwise valid arguments (module cap non-zero
where supplied), they succeed. -/
theorem c3_fee_bps_bound (cfg : Config)
    (admin fee_bps max_modules_per_repo policy_ref bump : Nat) (clock : Clock)
    (maybe_max_modules_per_repo : Option Nat) (maybe_is_active : Option Bool)
    (maybe_policy_ref : Option Nat)
    (hmax : 0 < max_modules_per_repo)
    (hmax2 : ∀ m, maybe_max_modules_per_repo = some m → 0 < m) :
    (5000 < fee_bps →
      cfg.init admin fee_bps max_modules_per_repo policy_ref bump clock =
          .error .InvalidFeeBps ∧
      cfg.apply_update (some fee_bps) maybe_max_modules_per_repo maybe_is_active
          maybe_policy_ref clock = .error .InvalidFeeBps) ∧
    (fee_bps ≤ 5000 →
      (∃ c, cfg.init admin fee_bps max_modules_per_repo policy_ref bump clock =
          .ok c) ∧
      (∃ c, cfg.apply_update (some fee_bps) maybe_max_modules_per_repo
          maybe_is_active maybe_policy_ref clock = .ok c)) := by
  constructor
  · intro hgt
    constructor
    · simp [Config.init, Config.validate_fee_bps, MAX_FEE_BPS, hgt]
    · simp [Config.apply_update, Config.validate_fee_bps, MAX_FEE_BPS, hgt]
  · intro hle
    have hfee : Config.validate_fee_bps fee_bps = .ok () := by
      simp [Config.validate_fee_bps, MAX_FEE_BPS]
      omega
    have hmm : Config.validate_max_modules max_modules_per_repo = .ok () := by
      simp [Config.validate_max_modules]
      omega
    constructor
    · cases h : cfg.init admin fee_bps max_modules_per_repo policy_ref bump clock with
      | ok c => exact ⟨c, rfl⟩
      | error e => simp [Config.init, hfee, hmm] at h
    · cases h : cfg.apply_update (some fee_bps) maybe_max_modules_per_repo
          maybe_is_active maybe_policy_ref clock with
      | ok c => exact ⟨c, rfl⟩
      | error e =>
        cases hmmpr : maybe_max_modules_per_repo with
        | none => simp [Config.apply_update, hmmpr, hfee] at h
        | some m =>
          have hm : Config.validate_max_modules m = .ok () := by
            have := hmax2 m hmmpr
            simp [Config.validate_max_modules]
            omega
          simp [Config.apply_update, hmmpr, hfee, hm] at h

/-- Witness for C3: `fee_bps = 6000` is rejected with `InvalidFeeBps` by both
`init` and `apply_update`, while `fee_bps = 5000` is accepted by both. -/
theorem c3_fee_bps_bound_witness :
    (sampleConfig.init 1 6000 100 0 255 sampleClock = .error .InvalidFeeBps ∧
     sampleConfig.apply_update (some 6000) none none none sampleClock =
       .error .InvalidFeeBps) ∧
    ((∃ c, sampleConfig.init 1 5000 100 0 255 sampleClock = .ok c) ∧
     (∃ c, sampleConfig.apply_update (some 5000) none none none sampleClock =
       .ok c)) :=
  ⟨(c3_fee_bps_bound sampleConfig 1 6000 100 0 255 sampleClock none none none
      (by decide) (fun m h => nomatch h)).1 (by decide),
   (c3_fee_bps_bound sampleConfig 1 5000 100 0 255 sampleClock none none none
      (by decide) (fun m h => nomatch h)).2 (by decide)⟩

/-- Claim C1: when `Lifecycle::assert_writes_allowed` would fail, each of the
three write instructions (`create_fork`, `record_observation`,
`record_metrics`) is rejected with the lifecycle error before any account
mutation: no `Fork` account is initialized, and the returned post-states of
`Repo` and `Metrics` equal their pre-states (the `Config` and `Lifecycle`
accounts are never written by these handlers at all). -/
theorem c1_lifecycle_gate (lifecycle : Lifecycle) (config : Config)
    (owner fork_bump admin observer : Nat) (fork : Fork) (repo : Repo)
    (metrics : Metrics) (clock : Clock) (fargs : CreateForkArgs)
    (oargs : RecordObservationArgs) (margs : RecordMetricsArgs)
    (h : lifecycle.writes_allowed = false) :
    create_fork.handle lifecycle config owner fork fork_bump clock fargs =
        .error .InvalidLifecycleState ∧
    record_observation.handle lifecycle config metrics repo observer clock
        oargs = ((repo, metrics), some .InvalidLifecycleState) ∧
    record_metrics.handle lifecycle config admin metrics clock margs =
        (metrics, some .InvalidLifecycleState) := by
  refine ⟨?_, ?_, ?_⟩ <;>
    simp [create_fork.handle, record_observation.handle, record_metrics.handle,
      Lifecycle.assert_writes_allowed, h]

/-- Witness for C1: with a frozen lifecycle, the three handlers reject
concrete calls with `InvalidLifecycleState` and the pre-state accounts come
back unchanged. -/
theorem c1_lifecycle_gate_witness :
    create_fork.handle frozenLifecycle sampleConfig 2 blankFork 3 sampleClock
        { fork_key := 9, parent := none, label := "alpha", metadata_uri := "m",
          tags := "", is_root := true, depth := none } =
        .error .InvalidLifecycleState ∧
    record_observation.handle frozenLifecycle sampleConfig sampleMetrics
        sampleRepo 5 sampleClock
        { lines_of_code := 10, files_processed := 1, modules_touched := 0,
          revision := "", note := "" } =
        ((sampleRepo, sampleMetrics), some .InvalidLifecycleState) ∧
    record_metrics.handle frozenLifecycle sampleConfig 1 sampleMetrics
        sampleClock
        { total_repos := none, total_modules := none, total_forks := none,
          total_observations := none, total_lines_of_code := none,
          total_files_processed := none } =
        (sampleMetrics, some .InvalidLifecycleState) :=
  c1_lifecycle_gate frozenLifecycle sampleConfig 2 3 1 5 blankFork sampleRepo
    sampleMetrics sampleClock
    { fork_key := 9, parent := none, label := "alpha", metadata_uri := "m",
      tags := "", is_root := true, depth := none }
    { lines_of_code := 10, files_processed := 1, modules_touched := 0,
      revision := "", note := "" }
    { total_repos := none, total_modules := none, total_forks := none,
      total_observations := none, total_lines_of_code := none,
      total_files_processed := none }
    rfl

/-- Claim C4: for every `create_fork` call that succeeds in reaching the depth
computation (guards and string validation pass), the stored fork depth is
`d` whenever `args.depth = some d` — regardless of `is_root` and of any
parent state — and defaults to `0` for roots and `1` for non-roots when
`args.depth = none`. -/
theorem c4_fork_depth (lifecycle : Lifecycle) (config : Config)
    (owner fork_bump : Nat) (fork : Fork) (clock : Clock)
    (args : CreateForkArgs)
    (hl : lifecycle.writes_allowed = true) (hc : config.is_active = true)
    (hlbl : args.label.isEmpty = false)
    (hlbl2 : args.label.length ≤ Fork.MAX_LABEL_LEN)
    (huri : args.metadata_uri.isEmpty = false)
    (huri2 : args.metadata_uri.length ≤ Fork.MAX_METADATA_URI_LEN)
    (htags : args.tags.length ≤ Fork.MAX_TAGS_LEN) :
    (create_fork.handle lifecycle config owner fork fork_bump clock args).map
        Fork.depth =
      .ok (match args.depth with
           | some d => d
           | none => if args.is_root then 0 else 1) := by
  simp [create_fork.handle, Lifecycle.assert_writes_allowed, hl,
    Config.assert_active, hc, hlbl, huri, Nat.not_lt.mpr hlbl2,
    Nat.not_lt.mpr huri2, Nat.not_lt.mpr htags, Fork.init, Except.map]

/-- Witness for C4: an explicit `depth = some 7` on a non-root fork is stored
verbatim. -/
theorem c4_fork_depth_witness :
    (create_fork.handle sampleLifecycle sampleConfig 2 blankFork 9 sampleClock
        { fork_key := 11, parent := some 4, label := "beta", metadata_uri := "m",
          tags := "t", is_root := false, depth := some 7 }).map Fork.depth =
      .ok 7 :=
  c4_fork_depth sampleLifecycle sampleConfig 2 9 blankFork sampleClock
    { fork_key := 11, parent := some 4, label := "beta", metadata_uri := "m",
      tags := "t", is_root := false, depth := some 7 }
    rfl rfl (by decide) (by decide) (by decide) (by decide) (by decide)

/-- Claim C6: `record_observation` on a repo whose observation flag is false
(with the preceding lifecycle, config and repo-active guards passing) fails
with `ObservationNotAllowed` and leaves both the `Metrics` account and the
`Repo` account completely unchanged. -/
theorem c6_observation_not_allowed (lifecycle : Lifecycle) (config : Config)
    (metrics : Metrics) (repo : Repo) (observer : Nat) (clock : Clock)
    (args : RecordObservationArgs)
    (hl : lifecycle.writes_allowed = true) (hc : config.is_active = true)
    (hra : repo.is_active = true) (hro : repo.observation_allowed = false) :
    record_observation.handle lifecycle config metrics repo observer clock
        args = ((repo, metrics), some .ObservationNotAllowed) := by
  simp [record_observation.handle, Lifecycle.assert_writes_allowed, hl,
    Config.assert_active, hc, Repo.assert_active, hra,
    Repo.assert_observable, hro]

/-- Witness for C6: a concrete observation call on a locked repository fails
with `ObservationNotAllowed` and returns the pre-state accounts. -/
theorem c6_observation_not_allowed_witness :
    record_observation.handle sampleLifecycle sampleConfig sampleMetrics
        lockedRepo 5 sampleClock
        { lines_of_code := 10, files_processed := 1, modules_touched := 0,
          revision := "", note := "" } =
      ((lockedRepo, sampleMetrics), some .ObservationNotAllowed) :=
  c6_observation_not_allowed sampleLifecycle sampleConfig sampleMetrics
    lockedRepo 5 sampleClock
    { lines_of_code := 10, files_processed := 1, modules_touched := 0,
      revision := "", note := "" }
    rfl rfl rfl rfl

/-- Claim C7: `Metrics::record_observation` increments `total_observations`,
adds `loc` to `total_lines_of_code` and `files` to `total_files_processed`
with checked arithmetic: when all three sums fit in a `u64` it succeeds with
exactly those sums (and a refreshed `updated_at`), and whenever any addition
would overflow a `u64` it signals `CounterOverflow` instead of wrapping. -/
theorem c7_metrics_checked_aggregation (m : Metrics) (loc files : Nat)
    (clock : Clock) :
    (m.total_observations + 1 ≤ U64_MAX →
     m.total_lines_of_code + loc ≤ U64_MAX →
     m.total_files_processed + files ≤ U64_MAX →
      m.record_observation loc files clock =
        .ok { m with
              total_observations := m.total_observations + 1
              total_lines_of_code := m.total_lines_of_code + loc
              total_files_processed := m.total_files_processed + files
              updated_at := clock.unix_timestamp }) ∧
    (U64_MAX < m.total_observations + 1 ∨
     U64_MAX < m.total_lines_of_code + loc ∨
     U64_MAX < m.total_files_processed + files →
      m.record_observation loc files clock = .error .CounterOverflow) := by
  constructor
  · intro h1 h2 h3
    simp [Metrics.record_observation, checkedAddU64, Nat.not_lt.mpr h1,
      Nat.not_lt.mpr h2, Nat.not_lt.mpr h3]
  · intro h
    by_cases h1 : U64_MAX < m.total_observations + 1
    · simp [Metrics.record_observation, checkedAddU64, h1]
    · by_cases h2 : U64_MAX < m.total_lines_of_code + loc
      · simp [Metrics.record_observation, checkedAddU64, h1, h2]
      · have h3 : U64_MAX < m.total_files_processed + files := by
          rcases h with h | h | h
          · exact absurd h h1
          · exact absurd h h2
          · exact h
        simp [Metrics.record_observation, checkedAddU64, h1, h2, h3]

/-- Witness for C7: a concrete in-range aggregation succeeds with the exact
sums, and a concrete aggregation whose line count would exceed `u64::MAX`
fails with `CounterOverflow`. -/
theorem c7_metrics_checked_aggregation_witness :
    sampleMetrics.record_observation 100 2 sampleClock =
      .ok { sampleMetrics with
            total_observations := 11
            total_lines_of_code := 50100
            total_files_processed := 402
            updated_at := 1700000000 } ∧
    sampleMetrics.record_observation 18446744073709551615 2 sampleClock =
      .error .CounterOverflow :=
  ⟨(c7_metrics_checked_aggregation sampleMetrics 100 2 sampleClock).1
      (by decide) (by decide) (by decide),
   (c7_metrics_checked_aggregation sampleMetrics 18446744073709551615 2
      sampleClock).2 (Or.inr (Or.inl (by decide)))⟩

/-- Claim C5: a `record_observation` call whose guards pass and whose other
arguments are valid fails with `ValueOutOfRange` when `lines_of_code = 0`,
fails with `ObservationDataTooLarge` when
`lines_of_code > MAX_LOC_PER_OBSERVATION` (10 000 000), and succeeds when
`lines_of_code = MAX_LOC_PER_OBSERVATION`. -/
theorem c5_record_observation_loc_bounds (lifecycle : Lifecycle)
    (config : Config) (metrics : Metrics) (repo : Repo) (observer : Nat)
    (clock : Clock) (args : RecordObservationArgs)
    (hl : lifecycle.writes_allowed = true) (hc : config.is_active = true)
    (hra : repo.is_active = true) (hro : repo.observation_allowed = true)
    (hfp1 : args.files_processed ≠ 0)
    (hfp2 : args.files_processed ≤ MAX_FILES_PER_OBSERVATION)
    (hmt : args.modules_touched ≤ MAX_MODULES_PER_OBSERVATION)
    (hrev : args.revision.length ≤ Repo.MAX_REVISION_LEN)
    (hnote : args.note.length ≤ Repo.MAX_OBSERVATION_NOTE_LEN)
    (hcap : repo.observation_count < SOFT_MAX_OBSERVATIONS_PER_REPO)
    (hrl : repo.total_lines_of_code + MAX_LOC_PER_OBSERVATION ≤ U64_MAX)
    (hrf : repo.total_files_processed + args.files_processed ≤ U64_MAX)
    (hrm : repo.modules_touched + args.modules_touched ≤ U64_MAX)
    (hmo : metrics.total_observations + 1 ≤ U64_MAX)
    (hml : metrics.total_lines_of_code + MAX_LOC_PER_OBSERVATION ≤ U64_MAX)
    (hmf : metrics.total_files_processed + args.files_processed ≤ U64_MAX) :
    (args.lines_of_code = 0 →
      record_observation.handle lifecycle config metrics repo observer clock
          args = ((repo, metrics), some .ValueOutOfRange)) ∧
    (args.lines_of_code > MAX_LOC_PER_OBSERVATION →
      record_observation.handle lifecycle config metrics repo observer clock
          args = ((repo, metrics), some .ObservationDataTooLarge)) ∧
    (args.lines_of_code = MAX_LOC_PER_OBSERVATION →
      (record_observation.handle lifecycle config metrics repo observer clock
          args).2 = none) := by
  refine ⟨?_, ?_, ?_⟩
  · intro h0
    simp [record_observation.handle, Lifecycle.assert_writes_allowed, hl,
      Config.assert_active, hc, Repo.assert_active, hra,
      Repo.assert_observable, hro, h0]
  · intro hgt
    have h0 : args.lines_of_code ≠ 0 := by
      simp [MAX_LOC_PER_OBSERVATION] at hgt
      omega
    simp [record_observation.handle, Lifecycle.assert_writes_allowed, hl,
      Config.assert_active, hc, Repo.assert_active, hra,
      Repo.assert_observable, hro, h0, hgt]
  · intro heq
    have e0 : args.lines_of_code ≠ 0 := by
      rw [heq]
      simp [MAX_LOC_PER_OBSERVATION]
    have e1 : ¬ args.lines_of_code > MAX_LOC_PER_OBSERVATION := by
      rw [heq]
      exact lt_irrefl _
    have e2 : ¬ args.files_processed > MAX_FILES_PER_OBSERVATION :=
      Nat.not_lt.mpr hfp2
    have e3 : ¬ args.modules_touched > MAX_MODULES_PER_OBSERVATION :=
      Nat.not_lt.mpr hmt
    have e4 : ¬ args.revision.length > Repo.MAX_REVISION_LEN :=
      Nat.not_lt.mpr hrev
    have e5 : ¬ args.note.length > Repo.MAX_OBSERVATION_NOTE_LEN :=
      Nat.not_lt.mpr hnote
    have e6 : ¬ repo.observation_count ≥ SOFT_MAX_OBSERVATIONS_PER_REPO :=
      Nat.not_le.mpr hcap
    have e7 : ¬ repo.observation_count + 1 > U64_MAX := by
      simp [SOFT_MAX_OBSERVATIONS_PER_REPO] at hcap
      simp [U64_MAX]
      omega
    have e8 : ¬ repo.total_lines_of_code + args.lines_of_code > U64_MAX := by
      rw [heq]
      exact Nat.not_lt.mpr hrl
    have e9 : ¬ repo.total_files_processed + args.files_processed > U64_MAX :=
      Nat.not_lt.mpr hrf
    have e10 : ¬ repo.modules_touched + args.modules_touched > U64_MAX :=
      Nat.not_lt.mpr hrm
    have e11 : ¬ metrics.total_observations + 1 > U64_MAX :=
      Nat.not_lt.mpr hmo
    have e12 : ¬ metrics.total_lines_of_code + args.lines_of_code > U64_MAX := by
      rw [heq]
      exact Nat.not_lt.mpr hml
    have e13 : ¬ metrics.total_files_processed + args.files_processed > U64_MAX :=
      Nat.not_lt.mpr hmf
    simp [record_observation.handle, Lifecycle.assert_writes_allowed, hl,
      Config.assert_active, hc, Repo.assert_active, hra,
      Repo.assert_observable, hro, e0, e1, hfp1, e2, e3, e4, e5,
      Repo.record_observation, e6, checkedAddU64, e7, e8, e9, e10,
      Metrics.record_observation, e11, e12, e13]

/-- Witness for C5: on fixture accounts, `lines_of_code = 0` yields
`ValueOutOfRange`, `lines_of_code = 10 000 001` yields
`ObservationDataTooLarge`, and `lines_of_code = 10 000 000` succeeds. -/
theorem c5_record_observation_loc_bounds_witness :
    record_observation.handle sampleLifecycle sampleConfig sampleMetrics
        sampleRepo 5 sampleClock
        { lines_of_code := 0, files_processed := 1, modules_touched := 0,
          revision := "", note := "" } =
      ((sampleRepo, sampleMetrics), some .ValueOutOfRange) ∧
    record_observation.handle sampleLifecycle sampleConfig sampleMetrics
        sampleRepo 5 sampleClock
        { lines_of_code := 10000001, files_processed := 1,
          modules_touched := 0, revision := "", note := "" } =
      ((sampleRepo, sampleMetrics), some .ObservationDataTooLarge) ∧
    (record_observation.handle sampleLifecycle sampleConfig sampleMetrics
        sampleRepo 5 sampleClock
        { lines_of_code := 10000000, files_processed := 1,
          modules_touched := 0, revision := "", note := "" }).2 = none :=
  ⟨(c5_record_observation_loc_bounds sampleLifecycle sampleConfig
      sampleMetrics sampleRepo 5 sampleClock
      { lines_of_code := 0, files_processed := 1, modules_touched := 0,
        revision := "", note := "" }
      rfl rfl rfl rfl (by decide) (by decide) (by decide) (by decide)
      (by decide) (by decide) (by decide) (by decide) (by decide) (by decide)
      (by decide) (by decide)).1 rfl,
   (c5_record_observation_loc_bounds sampleLifecycle sampleConfig
      sampleMetrics sampleRepo 5 sampleClock
      { lines_of_code := 10000001, files_processed := 1, modules_touched := 0,
        revision := "", note := "" }
      rfl rfl rfl rfl (by decide) (by decide) (by decide) (by decide)
      (by decide) (by decide) (by decide) (by decide) (by decide) (by decide)
      (by decide) (by decide)).2.1 (by decide),
   (c5_record_observation_loc_bounds sampleLifecycle sampleConfig
      sampleMetrics sampleRepo 5 sampleClock
      { lines_of_code := 10000000, files_processed := 1, modules_touched := 0,
        revision := "", note := "" }
      rfl rfl rfl rfl (by decide) (by decide) (by decide) (by decide)
      (by decide) (by decide) (by decide) (by decide) (by decide) (by decide)
      (by decide) (by decide)).2.2 rfl⟩

/-- Claim C10: beyond the spec's stated `lines_of_code` checks, the
`record_observation` handler also rejects `files_processed = 0` with
`ValueOutOfRange` and `files_processed > MAX_FILES_PER_OBSERVATION` (100 000)
with `ObservationDataTooLarge`, so an observation with a valid
`lines_of_code` but zero files always fails. -/
theorem c10_files_processed_bounds (lifecycle : Lifecycle) (config : Config)
    (metrics : Metrics) (repo : Repo) (observer : Nat) (clock : Clock)
    (args : RecordObservationArgs)
    (hl : lifecycle.writes_allowed = true) (hc : config.is_active = true)
    (hra : repo.is_active = true) (hro : repo.observation_allowed = true)
    (hloc1 : args.lines_of_code ≠ 0)
    (hloc2 : args.lines_of_code ≤ MAX_LOC_PER_OBSERVATION) :
    (args.files_processed = 0 →
      record_observation.handle lifecycle config metrics repo observer clock
          args = ((repo, metrics), some .ValueOutOfRange)) ∧
    (args.files_processed > MAX_FILES_PER_OBSERVATION →
      record_observation.handle lifecycle config metrics repo observer clock
          args = ((repo, metrics), some .ObservationDataTooLarge)) := by
  have hloc2' : ¬ args.lines_of_code > MAX_LOC_PER_OBSERVATION :=
    Nat.not_lt.mpr hloc2
  constructor
  · intro hf0
    simp [record_observation.handle, Lifecycle.assert_writes_allowed, hl,
      Config.assert_active, hc, Repo.assert_active, hra,
      Repo.assert_observable, hro, hloc1, hloc2', hf0]
  · intro hfgt
    have hf0 : args.files_processed ≠ 0 := by
      simp [MAX_FILES_PER_OBSERVATION] at hfgt
      omega
    simp [record_observation.handle, Lifecycle.assert_writes_allowed, hl,
      Config.assert_active, hc, Repo.assert_active, hra,
      Repo.assert_observable, hro, hloc1, hloc2', hf0, hfgt]

/-- Witness for C10: with a valid `lines_of_code`, `files_processed = 0`
fails with `ValueOutOfRange` and `files_processed = 100 001` fails with
`ObservationDataTooLarge` on fixture accounts. -/
theorem c10_files_processed_bounds_witness :
    record_observation.handle sampleLifecycle sampleConfig sampleMetrics
        sampleRepo 5 sampleClock
        { lines_of_code := 10, files_processed := 0, modules_touched := 0,
          revision := "", note := "" } =
      ((sampleRepo, sampleMetrics), some .ValueOutOfRange) ∧
    record_observation.handle sampleLifecycle sampleConfig sampleMetrics
        sampleRepo 5 sampleClock
        { lines_of_code := 10, files_processed := 100001,
          modules_touched := 0, revision := "", note := "" } =
      ((sampleRepo, sampleMetrics), some .ObservationDataTooLarge) :=
  ⟨(c10_files_processed_bounds sampleLifecycle sampleConfig sampleMetrics
      sampleRepo 5 sampleClock
      { lines_of_code := 10, files_processed := 0, modules_touched := 0,
        revision := "", note := "" }
      rfl rfl rfl rfl (by decide) (by decide)).1 rfl,
   (c10_files_processed_bounds sampleLifecycle sampleConfig sampleMetrics
      sampleRepo 5 sampleClock
      { lines_of_code := 10, files_processed := 100001, modules_touched := 0,
        revision := "", note := "" }
      rfl rfl rfl rfl (by decide) (by decide)).2 (by decide)⟩

/-- Claim C2: with the lifecycle, admin and config-active guards passing,
`record_metrics` fails with `ValueOutOfRange` and leaves all six counters and
`updated_at` of the `Metrics` account unchanged whenever any of the six
optional fields is `some u64::MAX` (all-or-nothing); otherwise it succeeds,
each `some` value unconditionally overwriting its counter and each `none`
leaving its counter as-is (with `updated_at` refreshed). -/
theorem c2_record_metrics_sentinel (lifecycle : Lifecycle) (config : Config)
    (admin : Nat) (metrics : Metrics) (clock : Clock)
    (args : RecordMetricsArgs)
    (hl : lifecycle.writes_allowed = true) (ha : admin = config.admin)
    (hc : config.is_active = true) :
    ((args.total_repos = some U64_MAX ∨ args.total_modules = some U64_MAX ∨
      args.total_forks = some U64_MAX ∨
      args.total_observations = some U64_MAX ∨
      args.total_lines_of_code = some U64_MAX ∨
      args.total_files_processed = some U64_MAX) →
      record_metrics.handle lifecycle config admin metrics clock args =
        (metrics, some .ValueOutOfRange)) ∧
    (args.total_repos ≠ some U64_MAX → args.total_modules ≠ some U64_MAX →
     args.total_forks ≠ some U64_MAX → args.total_observations ≠ some U64_MAX →
     args.total_lines_of_code ≠ some U64_MAX →
     args.total_files_processed ≠ some U64_MAX →
      record_metrics.handle lifecycle config admin metrics clock args =
        (metrics.overwrite args.total_repos args.total_modules args.total_forks
          args.total_observations args.total_lines_of_code
          args.total_files_processed clock, none)) := by
  constructor
  · intro hdisj
    by_cases h1 : args.total_repos = some U64_MAX
    · simp [record_metrics.handle, Lifecycle.assert_writes_allowed, hl,
        Config.assert_admin, ha, Config.assert_active, hc, h1, checkNotMax_max]
    · have e1 := checkNotMax_eq_ok _ h1
      by_cases h2 : args.total_modules = some U64_MAX
      · simp [record_metrics.handle, Lifecycle.assert_writes_allowed, hl,
          Config.assert_admin, ha, Config.assert_active, hc, e1,
          h2, checkNotMax_max]
      · have e2 := checkNotMax_eq_ok _ h2
        by_cases h3 : args.total_forks = some U64_MAX
        · simp [record_metrics.handle, Lifecycle.assert_writes_allowed, hl,
            Config.assert_admin, ha, Config.assert_active, hc, e1, e2,
            h3, checkNotMax_max]
        · have e3 := checkNotMax_eq_ok _ h3
          by_cases h4 : args.total_observations = some U64_MAX
          · simp [record_metrics.handle, Lifecycle.assert_writes_allowed, hl,
              Config.assert_admin, ha, Config.assert_active, hc, e1, e2, e3,
              h4, checkNotMax_max]
          · have e4 := checkNotMax_eq_ok _ h4
            by_cases h5 : args.total_lines_of_code = some U64_MAX
            · simp [record_metrics.handle, Lifecycle.assert_writes_allowed,
                hl, Config.assert_admin, ha, Config.assert_active, hc, e1, e2,
                e3, e4, h5, checkNotMax_max]
            · have e5 := checkNotMax_eq_ok _ h5
              have h6 : args.total_files_processed = some U64_MAX := by
                rcases hdisj with h | h | h | h | h | h
                · exact absurd h h1
                · exact absurd h h2
                · exact absurd h h3
                · exact absurd h h4
                · exact absurd h h5
                · exact h
              simp [record_metrics.handle, Lifecycle.assert_writes_allowed,
                hl, Config.assert_admin, ha, Config.assert_active, hc, e1, e2,
                e3, e4, e5, h6, checkNotMax_max]
  · intro n1 n2 n3 n4 n5 n6
    simp [record_metrics.handle, Lifecycle.assert_writes_allowed, hl,
      Config.assert_admin, ha, Config.assert_active, hc,
      checkNotMax_eq_ok _ n1, checkNotMax_eq_ok _ n2, checkNotMax_eq_ok _ n3,
      checkNotMax_eq_ok _ n4, checkNotMax_eq_ok _ n5, checkNotMax_eq_ok _ n6,
      Metrics.adjust_aggregate, Metrics.overwrite]

/-- Witness for C2: on fixture accounts, `total_forks = some u64::MAX` is
rejected with `ValueOutOfRange` leaving the metrics unchanged, while a
mixed patch (`some 42` for repos, `some 777` for lines of code, the rest
`none`) overwrites exactly those two counters and refreshes `updated_at`. -/
theorem c2_record_metrics_sentinel_witness :
    record_metrics.handle sampleLifecycle sampleConfig 1 sampleMetrics
        sampleClock
        { total_repos := none, total_modules := none,
          total_forks := some 18446744073709551615, total_observations := none,
          total_lines_of_code := none, total_files_processed := none } =
      (sampleMetrics, some .ValueOutOfRange) ∧
    record_metrics.handle sampleLifecycle sampleConfig 1 sampleMetrics
        sampleClock
        { total_repos := some 42, total_modules := none, total_forks := none,
          total_observations := none, total_lines_of_code := some 777,
          total_files_processed := none } =
      (sampleMetrics.overwrite (some 42) none none none (some 777) none
        sampleClock, none) :=
  ⟨(c2_record_metrics_sentinel sampleLifecycle sampleConfig 1 sampleMetrics
      sampleClock
      { total_repos := none, total_modules := none,
        total_forks := some 18446744073709551615, total_observations := none,
        total_lines_of_code := none, total_files_processed := none }
      rfl rfl rfl).1 (Or.inr (Or.inr (Or.inl rfl))),
   (c2_record_metrics_sentinel sampleLifecycle sampleConfig 1 sampleMetrics
      sampleClock
      { total_repos := some 42, total_modules := none, total_forks := none,
        total_observations := none, total_lines_of_code := some 777,
        total_files_processed := none }
      rfl rfl rfl).2 (by decide) (by decide) (by decide) (by decide)
      (by decide) (by decide)⟩

/-- Claim C9: `record_metrics` is idempotent — for every pre-state and fixed
clock, running the instruction twice with identical arguments leaves the
`Metrics` account in the same state as running it once (the reconciliation is
a pure overwrite, not additive). -/
theorem c9_record_metrics_idempotent (lifecycle : Lifecycle) (config : Config)
    (admin : Nat) (metrics : Metrics) (clock : Clock)
    (args : RecordMetricsArgs) :
    (record_metrics.handle lifecycle config admin
        (record_metrics.handle lifecycle config admin metrics clock args).1
        clock args).1 =
      (record_metrics.handle lifecycle config admin metrics clock args).1 := by
  cases h1 : Lifecycle.assert_writes_allowed lifecycle with
  | error e => simp [record_metrics.handle, h1]
  | ok u =>
  cases u
  cases h2 : Config.assert_admin config admin with
  | error e => simp [record_metrics.handle, h1, h2]
  | ok u =>
  cases u
  cases h3 : Config.assert_active config with
  | error e => simp [record_metrics.handle, h1, h2, h3]
  | ok u =>
  cases u
  cases k1 : checkNotMax args.total_repos with
  | error e => simp [record_metrics.handle, h1, h2, h3, k1]
  | ok u =>
  cases u
  cases k2 : checkNotMax args.total_modules with
  | error e => simp [record_metrics.handle, h1, h2, h3, k1, k2]
  | ok u =>
  cases u
  cases k3 : checkNotMax args.total_forks with
  | error e => simp [record_metrics.handle, h1, h2, h3, k1, k2, k3]
  | ok u =>
  cases u
  cases k4 : checkNotMax args.total_observations with
  | error e => simp [record_metrics.handle, h1, h2, h3, k1, k2, k3, k4]
  | ok u =>
  cases u
  cases k5 : checkNotMax args.total_lines_of_code with
  | error e => simp [record_metrics.handle, h1, h2, h3, k1, k2, k3, k4, k5]
  | ok u =>
  cases u
  cases k6 : checkNotMax args.total_files_processed with
  | error e => simp [record_metrics.handle, h1, h2, h3, k1, k2, k3, k4, k5, k6]
  | ok u =>
  cases u
  simp [record_metrics.handle, h1, h2, h3, k1, k2, k3, k4, k5, k6,
    Metrics.adjust_aggregate, Metrics.overwrite, option_getD_getD]

end Unit09
